import Mathlib

/-
Verification development for sslyze/cli/command_line_parser.py.

The Python module is shallowly embedded below.  Python strings are Lean
Strings; the handful of Python string primitives the module uses
(split on a one-character separator, strip, startswith, str.replace with an
empty replacement, int()) are re-implemented as structurally recursive
functions over the underlying character lists so that every definition
evaluates by kernel reduction.  Fallible Python code returns Except;
external collaborators (the filesystem, nassl credential loading, proxy URL
parsing, and the ServerConnectivityInfo constructor of
sslyze.server_connectivity) are modelled as oracle parameters.
-/

/-- Python str.split(sep) for a one-character separator, on character lists:
splits at every occurrence and keeps empty segments, so that splitting the
empty list yields one empty segment, exactly like Python. -/
def pySplitChar (sep : Char) : List Char → List (List Char)
  | [] => [[]]
  | c :: rest =>
    let r := pySplitChar sep rest
    if c = sep then [] :: r
    else
      match r with
      | [] => [[c]]
      | h :: t => (c :: h) :: t

/-- Python server_str.split(sep) for the one-character separators used by the
module (':', '{', ']', '['). -/
def pySplit (sep : Char) (s : String) : List String :=
  (pySplitChar sep s.data).map String.mk

/-- Python `sep in s` membership test for a single character. -/
def pyContains (sep : Char) : List Char → Bool
  | [] => false
  | c :: rest => if c = sep then true else pyContains sep rest

/-- Python `sep in s` on a Lean String. -/
def pyContainsStr (sep : Char) (s : String) : Bool :=
  pyContains sep s.data

/-- The whitespace characters stripped by Python str.strip() with no
argument (ASCII range). -/
def pyIsSpace (c : Char) : Bool :=
  if c = ' ' then true
  else if c = '\t' then true
  else if c = '\n' then true
  else if c = '\x0b' then true
  else if c = '\x0c' then true
  else if c = '\r' then true
  else false

/-- Python str.strip(): remove leading and trailing whitespace. -/
def pyStrip (s : String) : String :=
  String.mk (((s.data.dropWhile pyIsSpace).reverse.dropWhile pyIsSpace).reverse)

/-- Python s.startswith(c) for a one-character prefix. -/
def pyStartsWith (c : Char) (s : String) : Bool :=
  match s.data with
  | [] => false
  | c0 :: _ => if c0 = c then true else false

/-- Python s.replace(old, new-empty): remove every occurrence of a
character (the module only ever replaces with the empty string). -/
def pyRemoveChar (sep : Char) (s : String) : String :=
  String.mk (s.data.filter (fun c => if c = sep then false else true))

/-- Decimal value of one digit character, none for a non-digit. -/
def digitVal (c : Char) : Option Nat :=
  if c = '0' then some 0
  else if c = '1' then some 1
  else if c = '2' then some 2
  else if c = '3' then some 3
  else if c = '4' then some 4
  else if c = '5' then some 5
  else if c = '6' then some 6
  else if c = '7' then some 7
  else if c = '8' then some 8
  else if c = '9' then some 9
  else none

/-- Accumulating base-10 evaluation of a digit list; none on a non-digit. -/
def digitsToNatAux (acc : Nat) : List Char → Option Nat
  | [] => some acc
  | c :: rest =>
    match digitVal c with
    | some d => digitsToNatAux (acc * 10 + d) rest
    | none => none

/-- Base-10 value of a nonempty all-digit character list. -/
def digitsToNat : List Char → Option Nat
  | [] => none
  | cs => digitsToNatAux 0 cs

/-- Python int(s) in base 10 (as used by the module): optional surrounding
whitespace, optional single sign, then a nonempty run of decimal digits;
anything else raises ValueError, modelled as none.  There is no range
restriction of any kind. -/
def pyInt (s : String) : Option Int :=
  let t := (pyStrip s).data
  match t with
  | '-' :: rest => (digitsToNat rest).map (fun n => -(n : Int))
  | '+' :: rest => (digitsToNat rest).map (fun n => (n : Int))
  | _ => (digitsToNat t).map (fun n => (n : Int))

deriving instance DecidableEq for Except

/-- Error message SERVER_STRING_ERROR_BAD_PORT of
CommandLineServerStringParser. -/
def SERVER_STRING_ERROR_BAD_PORT : String := "Not a valid host:port"

/-- Error message SERVER_STRING_ERROR_NO_IPV6 of
CommandLineServerStringParser. -/
def SERVER_STRING_ERROR_NO_IPV6 : String := "IPv6 is not supported on this platform"

/-- The exceptions that can escape CommandLineServerStringParser:
ServerConnectivityError carrying a message (raised explicitly), or an
uncaught IndexError from an out-of-range list subscript in
_parse_ipv6_server_string. -/
inductive PyErr where
  | serverConnectivityError (msg : String)
  | indexError
deriving DecidableEq, Repr

/-- CommandLineServerStringParser._parse_ipv4_server_string: if the string
contains a colon, the first segment is the host and the second segment is
int-parsed as the port (ServerConnectivityError on a failed int()); with no
colon the whole string is the host and the port is None. -/
def parse_ipv4_server_string (server_str : String) :
    Except PyErr (String × Option Int) :=
  if pyContainsStr ':' server_str then
    let host := (pySplit ':' server_str).getD 0 ""
    match pyInt ((pySplit ':' server_str).getD 1 "") with
    | some port => .ok (host, some port)
    | none => .error (.serverConnectivityError SERVER_STRING_ERROR_BAD_PORT)
  else
    .ok (server_str, none)

/-- CommandLineServerStringParser._parse_ipv6_server_string: requires
platform IPv6 support (socket.has_ipv6, passed as a parameter); splits on
the closing bracket; the address is the text after the opening bracket in
the first segment (a missing bracket is an uncaught IndexError, as in the
source); a colon in the remainder means a port follows, int-parsed from the
second colon-segment of the remainder. -/
def parse_ipv6_server_string (has_ipv6 : Bool) (server_str : String) :
    Except PyErr (String × Option Int) :=
  if has_ipv6 = false then
    .error (.serverConnectivityError SERVER_STRING_ERROR_NO_IPV6)
  else
    let target_split := pySplit ']' server_str
    match pySplit '[' (target_split.getD 0 "") with
    | _ :: ipv6_addr :: _ =>
      match target_split.get? 1 with
      | none => .error .indexError
      | some rest =>
        if pyContainsStr ':' rest then
          match pyInt ((pySplit ':' rest).getD 1 "") with
          | some port => .ok (ipv6_addr, some port)
          | none => .error (.serverConnectivityError SERVER_STRING_ERROR_BAD_PORT)
        else
          .ok (ipv6_addr, none)
    | _ => .error .indexError

/-- First step of parse_server_string: when the string contains both an
opening and a closing curly bracket, split at the first opening one; the
part before it becomes the working host string and the part after it, with
every closing curly bracket removed, is the forced IP.  Returns
(forced ip, working host string). -/
def extractForcedIp (server_str : String) : Option String × String :=
  if pyContainsStr '\x7b' server_str && pyContainsStr '\x7d' server_str then
    let raw_target := pySplit '\x7b' server_str
    (some (pyRemoveChar '\x7d' (raw_target.getD 1 "")), raw_target.getD 0 "")
  else
    (none, server_str)

/-- CommandLineServerStringParser.parse_server_string.  After the forced-IP
extraction: a working host string containing an opening square bracket is
parsed by the bracketed-IPv6 routine alone; otherwise, if the forced IP
exists and contains an opening square bracket it is re-parsed by the
bracketed-IPv6 routine (rewriting the forced IP and binding a port that the
source immediately shadows), and then the plain host:port fallback runs
unconditionally, its host and port being the ones returned. -/
def parse_server_string (has_ipv6 : Bool) (server_str : String) :
    Except PyErr (String × Option String × Option Int) :=
  let (ip, work) := extractForcedIp server_str
  if pyContainsStr '[' work then
    match parse_ipv6_server_string has_ipv6 work with
    | .error e => .error e
    | .ok (host, port) => .ok (host, ip, port)
  else
    let step_ip : Except PyErr (Option String) :=
      match ip with
      | some raw_ip =>
        if pyContainsStr '[' raw_ip then
          match parse_ipv6_server_string has_ipv6 raw_ip with
          | .error e => .error e
          -- the port produced here is dead: the fallback below reassigns it
          | .ok (new_ip, _shadowed_port) => .ok (some new_ip)
        else .ok ip
      | none => .ok none
    match step_ip with
    | .error e => .error e
    | .ok ip2 =>
      match parse_ipv4_server_string work with
      | .error e => .error e
      | .ok (host, port) => .ok (host, ip2, port)

/-- TlsWrappedProtocolEnum from sslyze.ssl_settings (external collaborator;
only the members referenced by this module are modelled). -/
inductive TlsWrappedProtocolEnum where
  | PLAIN_TLS
  | HTTPS
  | STARTTLS_SMTP
  | STARTTLS_XMPP
  | STARTTLS_XMPP_SERVER
  | STARTTLS_POP3
  | STARTTLS_IMAP
  | STARTTLS_FTP
  | STARTTLS_LDAP
  | STARTTLS_RDP
  | STARTTLS_POSTGRES
deriving DecidableEq, Repr

/-- OpenSslFileTypeEnum from nassl.ssl_client (external collaborator). -/
inductive OpenSslFileTypeEnum where
  | ASN1
  | PEM
deriving DecidableEq, Repr

/-- CommandLineParser.START_TLS_PROTOCOLS. -/
def START_TLS_PROTOCOLS : List String :=
  ["smtp", "xmpp", "xmpp_server", "pop3", "ftp", "imap", "ldap", "rdp", "postgres", "auto"]

/-- CommandLineParser.REGULAR_CMD: the canonical flags enabled by
--regular. -/
def REGULAR_CMD : List String :=
  ["sslv2", "sslv3", "tlsv1", "tlsv1_1", "tlsv1_2", "reneg", "resum", "certinfo_basic",
   "http_get", "hide_rejected_ciphers", "compression", "heartbleed", "openssl_ccs", "fallback"]

/-- The integer-keyed entries of CommandLineParser.STARTTLS_PROTOCOL_DICT,
used by the starttls=auto post-pass via a port lookup. -/
def STARTTLS_PROTOCOL_DICT_PORT (port : Int) : Option TlsWrappedProtocolEnum :=
  if port = 587 then some .STARTTLS_SMTP
  else if port = 25 then some .STARTTLS_SMTP
  else if port = 5222 then some .STARTTLS_XMPP
  else if port = 5269 then some .STARTTLS_XMPP_SERVER
  else if port = 109 then some .STARTTLS_POP3
  else if port = 110 then some .STARTTLS_POP3
  else if port = 143 then some .STARTTLS_IMAP
  else if port = 220 then some .STARTTLS_IMAP
  else if port = 21 then some .STARTTLS_FTP
  else if port = 3268 then some .STARTTLS_LDAP
  else if port = 389 then some .STARTTLS_LDAP
  else if port = 3389 then some .STARTTLS_RDP
  else if port = 5432 then some .STARTTLS_POSTGRES
  else none

/-- The string-keyed entries of CommandLineParser.STARTTLS_PROTOCOL_DICT,
used when an explicit protocol literal is passed to --starttls.  Note that
the literal auto is deliberately absent. -/
def STARTTLS_PROTOCOL_DICT_STR (s : String) : Option TlsWrappedProtocolEnum :=
  if s = "smtp" then some .STARTTLS_SMTP
  else if s = "xmpp" then some .STARTTLS_XMPP
  else if s = "xmpp_server" then some .STARTTLS_XMPP_SERVER
  else if s = "pop3" then some .STARTTLS_POP3
  else if s = "imap" then some .STARTTLS_IMAP
  else if s = "ftp" then some .STARTTLS_FTP
  else if s = "ldap" then some .STARTTLS_LDAP
  else if s = "rdp" then some .STARTTLS_RDP
  else if s = "postgres" then some .STARTTLS_POSTGRES
  else none

/-- The optparse destination values consumed by parse_command_line.  String
options default to None (Option String); booleans registered with
store_true default to false; the fourteen canonical scan flags are the
plugin-registered booleans that --regular turns on. -/
structure ArgsCommandList where
  targets_in : Option String
  quiet : Bool
  xml_file : Option String
  json_file : Option String
  cert : Option String
  key : Option String
  keyform : String
  keypass : String
  https_tunnel : Option String
  starttls : Option String
  xmpp_to : Option String
  sni : Option String
  timeout : Int
  nb_retries : Int
  regular : Bool
  sslv2 : Bool
  sslv3 : Bool
  tlsv1 : Bool
  tlsv1_1 : Bool
  tlsv1_2 : Bool
  reneg : Bool
  resum : Bool
  certinfo_basic : Bool
  http_get : Bool
  hide_rejected_ciphers : Bool
  compression : Bool
  heartbleed : Bool
  openssl_ccs : Bool
  fallback : Bool
deriving DecidableEq, Repr

/-- Python truthiness of an optparse string option: None and the empty
string are falsy, every other string is truthy. -/
def pyTruthyStr : Option String → Bool
  | none => false
  | some s => if s = "" then false else true

/-- Error messages raised as CommandLineParsingError by
parse_command_line, verbatim from the source. -/
def MSG_MUTUALLY_EXCLUSIVE : String :=
  "Cannot use --targets_list and specify targets within the command line."

/-- Message for an unreadable --targets_in file; the source's format string
closes with a period directly after the file name. -/
def MSG_UNREADABLE (targets_in : String) : String :=
  "Can\x27t read targets from input file \x27" ++ targets_in ++ "."

/-- Message raised when no targets remain after target sourcing. -/
def MSG_NO_TARGETS : String := "No targets to scan."

/-- Message for --quiet together with --xml_out -. -/
def MSG_QUIET_XML : String := "Cannot use --quiet with --xml_out -."

/-- Message for --quiet together with --json_out -. -/
def MSG_QUIET_JSON : String := "Cannot use --quiet with --json_out -."

/-- Message for --xml_out - together with --json_out -. -/
def MSG_XML_JSON : String := "Cannot use --xml_out - with --json_out -."

/-- Message for a lone --cert or a lone --key. -/
def MSG_CLIENT_AUTH : String :=
  "No private key or certificate file were given. See --cert and --key."

/-- Message for an unrecognized --keyform value. -/
def MSG_KEYFORM : String := "--keyform should be DER or PEM."

/-- Message for a credential bundle the external loader rejected. -/
def MSG_INVALID_CREDS (e : String) : String :=
  "Invalid client authentication settings: " ++ e ++ "."

/-- Message for a proxy URL the external parser rejected. -/
def MSG_INVALID_PROXY (e : String) : String :=
  "Invalid proxy URL for --https_tunnel: " ++ e ++ "."

/-- CommandLineParser.START_TLS_USAGE, built exactly as in the source from
the joined allow-list. -/
def START_TLS_USAGE : String :=
  "StartTLS should be one of: " ++ String.intercalate " , " START_TLS_PROTOCOLS ++
  ". The \x27auto\x27 option will cause SSLyze to deduce the protocol (ftp, imap, etc.) " ++
  "from the supplied port number, for each target servers."

/-- Message for --nb_retries below 1. -/
def MSG_NB_RETRIES : String := "Cannot have a number smaller than 1 for --nb_retries."

/-- One line of the --targets_in file: skipped when its stripped form is
empty (blank line) or when the raw line itself starts with the comment
character; otherwise the stripped line is the target string. -/
def lineToTarget (target : String) : Option String :=
  if (if pyStrip target = "" then false else true) = true then
    if pyStartsWith '#' target = false then some (pyStrip target)
    else none
  else none

/-- The --targets_in handling of parse_command_line (source lines 151-164):
a truthy targets_in with a nonempty positional target list is a fatal
mutual-exclusion error; otherwise the file is read through the filesystem
oracle (none models IOError), each line filtered through lineToTarget and
appended to the positional list. -/
def gatherTargets (readTargetsFile : String → Option (List String))
    (targets_in : Option String) (args_target_list : List String) :
    Except String (List String) :=
  if pyTruthyStr targets_in then
    if args_target_list.isEmpty = false then .error MSG_MUTUALLY_EXCLUSIVE
    else
      match readTargetsFile (targets_in.getD "") with
      | none => .error (MSG_UNREADABLE (targets_in.getD ""))
      | some file_lines => .ok (args_target_list ++ file_lines.filterMap lineToTarget)
  else .ok args_target_list

/-- The --regular shortcut expansion (source lines 170-175): when the
regular flag is set, clear it and enable every flag of REGULAR_CMD. -/
def expandRegular (args : ArgsCommandList) : ArgsCommandList :=
  if args.regular then
    { args with
      regular := false,
      sslv2 := true, sslv3 := true, tlsv1 := true, tlsv1_1 := true, tlsv1_2 := true,
      reneg := true, resum := true, certinfo_basic := true, http_get := true,
      hide_rejected_ciphers := true, compression := true, heartbleed := true,
      openssl_ccs := true, fallback := true }
  else args

/-- The --quiet with --xml_out - conflict test (source line 180). -/
def xmlQuietConflict (args : ArgsCommandList) : Bool :=
  pyTruthyStr args.xml_file && (if args.xml_file = some "-" then true else false) && args.quiet

/-- The --quiet with --json_out - conflict test (source line 184). -/
def jsonQuietConflict (args : ArgsCommandList) : Bool :=
  pyTruthyStr args.json_file && (if args.json_file = some "-" then true else false) && args.quiet

/-- The --xml_out - with --json_out - conflict test (source line 188). -/
def xmlJsonConflict (args : ArgsCommandList) : Bool :=
  pyTruthyStr args.json_file && (if args.json_file = some "-" then true else false)
    && pyTruthyStr args.xml_file && (if args.xml_file = some "-" then true else false)

/-- ClientAuthenticationCredentials from sslyze.ssl_settings (external):
the argument bundle handed to the external constructor. -/
structure ClientAuthenticationCredentials where
  client_certificate_chain_path : String
  client_key_path : String
  client_key_type : OpenSslFileTypeEnum
  client_key_password : String
deriving DecidableEq, Repr

/-- HttpConnectTunnelingSettings from sslyze.ssl_settings (external),
produced from a proxy URL by an external parser modelled as an oracle. -/
structure HttpConnectTunnelingSettings where
  proxy_url : String
deriving DecidableEq, Repr

/-- The fields of an external ServerConnectivityInfo object that this
module reads or writes after construction: the resolved port (read by the
two post-passes), the protocol field (overwritten by them), and the
server_string attribute the loop attaches for diagnostics. -/
structure ServerInfo where
  hostname : String
  ip_address : Option String
  port : Int
  tls_wrapped_protocol : TlsWrappedProtocolEnum
  server_string : String
deriving DecidableEq, Repr

/-- FailedServerScan from sslyze.cli: the original server string paired
with the connectivity error that excluded it. -/
structure FailedServerScan where
  server_string : String
  error_msg : String
deriving DecidableEq, Repr

/-- Outcome of the external ServerConnectivityInfo constructor: a
descriptor, a ServerConnectivityError (collected as a failed scan), or a
ValueError (escalated to a fatal CommandLineParsingError). -/
inductive ProbeOutcome where
  | ok (info : ServerInfo)
  | connectivityError (msg : String)
  | valueError (msg : String)

/-- The external ServerConnectivityInfo constructor, as an oracle over the
parsed hostname, port, ip and the effective TLS-wrapped protocol. -/
def Probe : Type :=
  String → Option Int → Option String → TlsWrappedProtocolEnum → ProbeOutcome

/-- What one iteration of the target loop does with one server string. -/
inductive TargetOutcome where
  | good (info : ServerInfo)
  | bad (failed : FailedServerScan)
  | fatal (msg : String)
  | crash

/-- One iteration of the target loop (source lines 248-272): a
ServerConnectivityError from parsing or probing becomes a FailedServerScan
for this string only; a ValueError from the probe is fatal; an uncaught
IndexError from the parser crashes the run.  A successful descriptor gets
the original server string attached. -/
def processTarget (has_ipv6 : Bool) (probe : Probe) (proto : TlsWrappedProtocolEnum)
    (server_string : String) : TargetOutcome :=
  match parse_server_string has_ipv6 server_string with
  | .error (.serverConnectivityError msg) => .bad ⟨server_string, msg⟩
  | .error .indexError => .crash
  | .ok (hostname, ip_address, port) =>
    match probe hostname port ip_address proto with
    | .ok info => .good { info with server_string := server_string }
    | .connectivityError msg => .bad ⟨server_string, msg⟩
    | .valueError msg => .fatal msg

/-- How a run of parse_command_line fails: a raised
CommandLineParsingError, or an exception no handler catches. -/
inductive RunFailure where
  | parsingError (msg : String)
  | uncaughtIndexError
deriving DecidableEq, Repr

/-- The target loop of parse_command_line: good and bad results are
accumulated in input order; a fatal outcome aborts the whole batch. -/
def resolveTargets (has_ipv6 : Bool) (probe : Probe) (proto : TlsWrappedProtocolEnum) :
    List String → Except RunFailure (List ServerInfo × List FailedServerScan)
  | [] => .ok ([], [])
  | t :: rest =>
    match processTarget has_ipv6 probe proto t with
    | .good info =>
      (resolveTargets has_ipv6 probe proto rest).map (fun (g, b) => (info :: g, b))
    | .bad failed =>
      (resolveTargets has_ipv6 probe proto rest).map (fun (g, b) => (g, failed :: b))
    | .fatal msg => .error (.parsingError msg)
    | .crash => .error .uncaughtIndexError

/-- The per-descriptor effect of the starttls=auto post-pass: overwrite the
protocol when the resolved port is a key of the table, otherwise leave the
descriptor unchanged. -/
def autoAdjust (info : ServerInfo) : ServerInfo :=
  match STARTTLS_PROTOCOL_DICT_PORT info.port with
  | some proto => { info with tls_wrapped_protocol := proto }
  | none => info

/-- The starttls=auto post-pass (source lines 276-280), applied to the good
descriptors only when the starttls option equals the literal auto. -/
def applyStartTlsAuto (starttls : Option String) (goods : List ServerInfo) :
    List ServerInfo :=
  if starttls = some "auto" then goods.map autoAdjust else goods

/-- The per-descriptor effect of the http_get post-pass: force HTTPS on
port 443. -/
def httpGetAdjust (info : ServerInfo) : ServerInfo :=
  if info.port = 443 then { info with tls_wrapped_protocol := .HTTPS } else info

/-- The http_get post-pass (source lines 284-287). -/
def applyHttpGet (http_get : Bool) (goods : List ServerInfo) : List ServerInfo :=
  if http_get then goods.map httpGetAdjust else goods

/-- The external collaborators of parse_command_line: the filesystem read
of the targets file (none models IOError), the nassl-backed credential
constructor and the proxy URL parser (error carries the ValueError
message), the connectivity probe, and the platform IPv6 capability. -/
structure World where
  readTargetsFile : String → Option (List String)
  credsCheck : String → String → OpenSslFileTypeEnum → String → Except String Unit
  tunnelFromUrl : String → Except String HttpConnectTunnelingSettings
  probe : Probe
  has_ipv6 : Bool

/-- Client certificate sanity checks (source lines 193-214): a lone cert or
lone key is fatal; with a cert present the key format literal must be DER
or PEM, and the external constructor failure surfaces with its message. -/
def clientAuthStep (w : World) (args : ArgsCommandList) :
    Except RunFailure (Option ClientAuthenticationCredentials) :=
  if Bool.xor (pyTruthyStr args.cert) (pyTruthyStr args.key) then
    .error (.parsingError MSG_CLIENT_AUTH)
  else if pyTruthyStr args.cert then
    match (if args.keyform = "DER" then some OpenSslFileTypeEnum.ASN1
           else if args.keyform = "PEM" then some OpenSslFileTypeEnum.PEM
           else none) with
    | none => .error (.parsingError MSG_KEYFORM)
    | some key_type =>
      match w.credsCheck (args.cert.getD "") (args.key.getD "") key_type args.keypass with
      | .ok _ => .ok (some ⟨args.cert.getD "", args.key.getD "", key_type, args.keypass⟩)
      | .error e => .error (.parsingError (MSG_INVALID_CREDS e))
  else .ok none

/-- HTTP CONNECT proxy handling (source lines 218-223). -/
def tunnelStep (w : World) (args : ArgsCommandList) :
    Except RunFailure (Option HttpConnectTunnelingSettings) :=
  if pyTruthyStr args.https_tunnel then
    match w.tunnelFromUrl (args.https_tunnel.getD "") with
    | .ok settings => .ok (some settings)
    | .error e => .error (.parsingError (MSG_INVALID_PROXY e))
  else .ok none

/-- STARTTLS handling (source lines 227-235): default PLAIN_TLS; a truthy
starttls value outside the allow-list is fatal; a value that is a string
key of the protocol table selects that protocol eagerly; the literal auto
is in the allow-list but not in the table, so it leaves PLAIN_TLS here. -/
def starttlsStep (args : ArgsCommandList) : Except RunFailure TlsWrappedProtocolEnum :=
  if pyTruthyStr args.starttls then
    if START_TLS_PROTOCOLS.contains (args.starttls.getD "") = false then
      .error (.parsingError START_TLS_USAGE)
    else
      match STARTTLS_PROTOCOL_DICT_STR (args.starttls.getD "") with
      | some proto => .ok proto
      | none => .ok TlsWrappedProtocolEnum.PLAIN_TLS
  else .ok TlsWrappedProtocolEnum.PLAIN_TLS

/-- CommandLineParser.parse_command_line, with the optparse argument pair
(args_command_list, args_target_list) passed in and the external
collaborators supplied by a World.  The steps run in source order: target
sourcing, the no-target check, --regular expansion, the three output-sink
conflicts, client auth, proxy, StartTLS, the retry-count check, the target
loop, and the two post-passes. -/
def parse_command_line (w : World) (args0 : ArgsCommandList)
    (args_target_list : List String) :
    Except RunFailure (List ServerInfo × List FailedServerScan × ArgsCommandList) :=
  match gatherTargets w.readTargetsFile args0.targets_in args_target_list with
  | .error msg => .error (.parsingError msg)
  | .ok targets =>
    if targets.isEmpty then .error (.parsingError MSG_NO_TARGETS)
    else
      let args := expandRegular args0
      if xmlQuietConflict args then .error (.parsingError MSG_QUIET_XML)
      else if jsonQuietConflict args then .error (.parsingError MSG_QUIET_JSON)
      else if xmlJsonConflict args then .error (.parsingError MSG_XML_JSON)
      else
        match clientAuthStep w args with
        | .error e => .error e
        | .ok _client_auth_creds =>
          match tunnelStep w args with
          | .error e => .error e
          | .ok _http_tunneling_settings =>
            match starttlsStep args with
            | .error e => .error e
            | .ok tls_wrapped_protocol =>
              if args.nb_retries < 1 then .error (.parsingError MSG_NB_RETRIES)
              else
                match resolveTargets w.has_ipv6 w.probe tls_wrapped_protocol targets with
                | .error e => .error e
                | .ok (good_server_list, bad_server_list) =>
                  let good_server_list := applyStartTlsAuto args.starttls good_server_list
                  let good_server_list := applyHttpGet args.http_get good_server_list
                  .ok (good_server_list, bad_server_list, args)

/-- C9: parsing "example.com:443\x7b1.2.3.4\x7d" returns host "example.com",
forced IP "1.2.3.4" and port 443. -/
theorem c9_forced_ip_example :
    parse_server_string true "example.com:443\x7b1.2.3.4\x7d" =
      Except.ok ("example.com", some "1.2.3.4", some 443) := by decide

/-- C1 counterexample: at "example.com\x7b[::1]:443\x7d" the working host has
no square bracket, the forced-IP suffix has one, and the working host has no
colon; the IPv6-in-forcedIp parse yields port 443 but parse_server_string
returns port none, because the plain fallback overwrites the port.
Moreover at "[::1]:443" the call succeeds although a plain parse of the
same working host string would fail int() on the empty segment between the
first two colons, so the plain fallback is not parsed when the
IPv6-in-host branch runs. -/
theorem c1_counterexample :
    parse_server_string true "example.com\x7b[::1]:443\x7d" =
      Except.ok ("example.com", some "::1", (none : Option Int)) ∧
    parse_ipv6_server_string true "[::1]:443" = Except.ok ("::1", some 443) ∧
    parse_server_string true "[::1]:443" = Except.ok ("::1", none, some 443) ∧
    pyInt ((pySplit ':' "[::1]:443").getD 1 "") = none := by decide

/-- C1 amended: the IPv6-in-host branch is exclusive; when it does not run,
the plain fallback always runs and its port is the one returned, so a port
extracted by the IPv6-in-forcedIp parse is always discarded; the
IPv6-in-forcedIp step contributes only the rewritten forced IP (and its
errors still propagate). -/
theorem c1_port_precedence :
    (∀ (s work raw_ip new_ip host : String) (p6 p4 : Option Int),
      extractForcedIp s = (some raw_ip, work) →
      pyContainsStr '[' work = false →
      pyContainsStr '[' raw_ip = true →
      parse_ipv6_server_string true raw_ip = Except.ok (new_ip, p6) →
      parse_ipv4_server_string work = Except.ok (host, p4) →
      parse_server_string true s = Except.ok (host, some new_ip, p4)) ∧
    (∀ (s work host : String) (ip : Option String) (port : Option Int),
      extractForcedIp s = (ip, work) →
      pyContainsStr '[' work = true →
      parse_ipv6_server_string true work = Except.ok (host, port) →
      parse_server_string true s = Except.ok (host, ip, port)) := by
  constructor
  · intro s work raw_ip new_ip host p6 p4 hext hw hr h6 h4
    simp [parse_server_string, hext, hw, hr, h6, h4]
  · intro s work host ip port hext hw h6
    simp [parse_server_string, hext, hw, h6]

/-- C1 witness: both branches of the amended statement at concrete inputs. -/
theorem c1_witness :
    parse_server_string true "example.com\x7b[::1]:443\x7d" =
      Except.ok ("example.com", some "::1", (none : Option Int)) ∧
    parse_server_string true "[::1]:443" =
      Except.ok ("::1", (none : Option String), some 443) :=
  ⟨c1_port_precedence.1 "example.com\x7b[::1]:443\x7d" "example.com" "[::1]:443" "::1"
      "example.com" (some 443) none (by decide) (by decide) (by decide) (by decide) (by decide),
    c1_port_precedence.2 "[::1]:443" "[::1]:443" "::1" none (some 443)
      (by decide) (by decide) (by decide)⟩

/-- C3 counterexample: explicit ports 99999999, 0 and -1 are all returned
as parsed, and 99999999 is not in the range [1, 65535]. -/
theorem c3_counterexample :
    parse_server_string true "host:99999999" = Except.ok ("host", none, some 99999999) ∧
    parse_server_string true "host:0" = Except.ok ("host", none, some 0) ∧
    parse_server_string true "host:-1" = Except.ok ("host", none, some (-1)) ∧
    ¬((1 : Int) ≤ 99999999 ∧ (99999999 : Int) ≤ 65535) := by decide

/-- C3 amended: a successfully parsed explicit port is exactly the integer
value of the port segment with no range restriction of any kind: whatever
integer the segment denotes, including 0, negatives and 99999999, is
returned as the port. -/
theorem c3_port_unrestricted (s : String) (p : Int)
    (hc : pyContainsStr ':' s = true)
    (hp : pyInt ((pySplit ':' s).getD 1 "") = some p) :
    parse_ipv4_server_string s = Except.ok ((pySplit ':' s).getD 0 "", some p) := by
  simp only [List.getD_eq_getElem?_getD] at hp
  simp [parse_ipv4_server_string, hc, hp]

/-- C3 witness: the amended statement at "host:99999999". -/
theorem c3_witness :
    parse_ipv4_server_string "host:99999999" =
      Except.ok ((pySplit ':' "host:99999999").getD 0 "", some 99999999) :=
  c3_port_unrestricted "host:99999999" 99999999 (by decide) (by decide)

/-- C7: a target string with no forced-IP suffix and no bracketed IPv6 part
whose port segment (the text between the first and second colon) does not
parse as an integer fails with the bad-port ServerConnectivityError. -/
theorem c7_bad_port (s : String)
    (hnb : (pyContainsStr '\x7b' s && pyContainsStr '\x7d' s) = false)
    (hb : pyContainsStr '[' s = false)
    (hc : pyContainsStr ':' s = true)
    (hp : pyInt ((pySplit ':' s).getD 1 "") = none) :
    parse_server_string true s =
      Except.error (PyErr.serverConnectivityError SERVER_STRING_ERROR_BAD_PORT) := by
  simp only [List.getD_eq_getElem?_getD] at hp
  simp [parse_server_string, extractForcedIp, hnb, hb, hc, hp, parse_ipv4_server_string]

/-- C7 witness: parsing "bad:host:99999999" fails with BadPort, because its
port segment is the non-integer "host". -/
theorem c7_witness :
    parse_server_string true "bad:host:99999999" =
      Except.error (PyErr.serverConnectivityError SERVER_STRING_ERROR_BAD_PORT) :=
  c7_bad_port "bad:host:99999999" (by decide) (by decide) (by decide) (by decide)

/-- Helper: a good outcome of one loop iteration carries the original
server string, attached by the loop after construction. -/
theorem processTarget_good_string (has_ipv6 : Bool) (probe : Probe)
    (proto : TlsWrappedProtocolEnum) (t : String) (info : ServerInfo)
    (h : processTarget has_ipv6 probe proto t = TargetOutcome.good info) :
    info.server_string = t := by
  unfold processTarget at h
  split at h
  · simp at h
  · simp at h
  · split at h
    · cases h; rfl
    · simp at h
    · simp at h

/-- Helper: a failed outcome of one loop iteration carries the original
server string as FailedServerScan does. -/
theorem processTarget_bad_string (has_ipv6 : Bool) (probe : Probe)
    (proto : TlsWrappedProtocolEnum) (t : String) (failed : FailedServerScan)
    (h : processTarget has_ipv6 probe proto t = TargetOutcome.bad failed) :
    failed.server_string = t := by
  unfold processTarget at h
  split at h
  · cases h; rfl
  · simp at h
  · split at h
    · simp at h
    · cases h; rfl
    · simp at h

/-- C2: when the target loop returns, the good and failed lists partition
the input batch: their lengths sum to the batch length and the original
strings they carry are, as a multiset, exactly the input strings, so every
input string lands in exactly one of the two lists. -/
theorem c2_partition (has_ipv6 : Bool) (probe : Probe) (proto : TlsWrappedProtocolEnum)
    (targets : List String) (goods : List ServerInfo) (bads : List FailedServerScan)
    (h : resolveTargets has_ipv6 probe proto targets = Except.ok (goods, bads)) :
    goods.length + bads.length = targets.length ∧
    List.Perm
      (goods.map ServerInfo.server_string ++ bads.map FailedServerScan.server_string)
      targets := by
  induction targets generalizing goods bads with
  | nil =>
    simp only [resolveTargets, Except.ok.injEq, Prod.mk.injEq] at h
    obtain ⟨h1, h2⟩ := h
    subst h1; subst h2
    simp
  | cons t rest ih =>
    simp only [resolveTargets] at h
    cases hp : processTarget has_ipv6 probe proto t with
    | good info =>
      rw [hp] at h
      cases hr : resolveTargets has_ipv6 probe proto rest with
      | error e => rw [hr] at h; simp [Except.map] at h
      | ok pair =>
        obtain ⟨g, b⟩ := pair
        rw [hr] at h
        simp only [Except.map, Except.ok.injEq, Prod.mk.injEq] at h
        obtain ⟨h1, h2⟩ := h
        subst h1; subst h2
        obtain ⟨ihl, ihp⟩ := ih g b hr
        have hs := processTarget_good_string has_ipv6 probe proto t info hp
        constructor
        · simp only [List.length_cons, List.length]
          omega
        · simp only [List.map_cons, List.cons_append]
          rw [hs]
          exact List.Perm.cons t ihp
    | bad failed =>
      rw [hp] at h
      cases hr : resolveTargets has_ipv6 probe proto rest with
      | error e => rw [hr] at h; simp [Except.map] at h
      | ok pair =>
        obtain ⟨g, b⟩ := pair
        rw [hr] at h
        simp only [Except.map, Except.ok.injEq, Prod.mk.injEq] at h
        obtain ⟨h1, h2⟩ := h
        subst h1; subst h2
        obtain ⟨ihl, ihp⟩ := ih g b hr
        have hs := processTarget_bad_string has_ipv6 probe proto t failed hp
        constructor
        · simp only [List.length_cons, List.length]
          omega
        · have hmid : List.Perm
              (g.map ServerInfo.server_string ++
                failed.server_string :: b.map FailedServerScan.server_string)
              (failed.server_string ::
                (g.map ServerInfo.server_string ++ b.map FailedServerScan.server_string)) :=
            List.perm_middle
          have hcons : List.Perm
              (failed.server_string ::
                (g.map ServerInfo.server_string ++ b.map FailedServerScan.server_string))
              (t :: rest) := by rw [hs]; exact List.Perm.cons t ihp
          exact hmid.trans hcons
    | fatal msg => rw [hp] at h; simp at h
    | crash => rw [hp] at h; simp at h

/-- A concrete filesystem-free World for witnesses: the file read always
fails, the external constructors always succeed, the probe accepts every
target with port defaulted to 443 when absent. -/
def worldBase : World where
  readTargetsFile := fun _ => none
  credsCheck := fun _ _ _ _ => Except.ok ()
  tunnelFromUrl := fun url => Except.ok ⟨url⟩
  probe := fun hostname port ip proto => ProbeOutcome.ok ⟨hostname, ip, port.getD 443, proto, ""⟩
  has_ipv6 := true

/-- C2 witness: a two-target batch with one good and one failed target. -/
theorem c2_witness :
    ([(⟨"a", none, 443, TlsWrappedProtocolEnum.PLAIN_TLS, "a"⟩ : ServerInfo)].length +
        [(⟨"bad:host:99999999", SERVER_STRING_ERROR_BAD_PORT⟩ : FailedServerScan)].length =
        (["a", "bad:host:99999999"] : List String).length) ∧
      List.Perm
        ([(⟨"a", none, 443, TlsWrappedProtocolEnum.PLAIN_TLS, "a"⟩ : ServerInfo)].map
            ServerInfo.server_string ++
          [(⟨"bad:host:99999999", SERVER_STRING_ERROR_BAD_PORT⟩ : FailedServerScan)].map
            FailedServerScan.server_string)
        ["a", "bad:host:99999999"] :=
  c2_partition true worldBase.probe TlsWrappedProtocolEnum.PLAIN_TLS
    ["a", "bad:host:99999999"]
    [⟨"a", none, 443, TlsWrappedProtocolEnum.PLAIN_TLS, "a"⟩]
    [⟨"bad:host:99999999", SERVER_STRING_ERROR_BAD_PORT⟩] (by decide)

/-- A concrete argument record for witnesses: every option at its optparse
default (string options None, store_true flags false, keyform PEM, keypass
empty) and the numeric defaults positive. -/
def argsBase : ArgsCommandList where
  targets_in := none
  quiet := false
  xml_file := none
  json_file := none
  cert := none
  key := none
  keyform := "PEM"
  keypass := ""
  https_tunnel := none
  starttls := none
  xmpp_to := none
  sni := none
  timeout := 5
  nb_retries := 4
  regular := false
  sslv2 := false
  sslv3 := false
  tlsv1 := false
  tlsv1_1 := false
  tlsv1_2 := false
  reneg := false
  resum := false
  certinfo_basic := false
  http_get := false
  hide_rejected_ciphers := false
  compression := false
  heartbleed := false
  openssl_ccs := false
  fallback := false

/-- C6: under starttls auto the post-pass maps every good descriptor
through the port table: a port that is a key gets its protocol overwritten
(the port itself untouched), a port that is not a key leaves the
descriptor unchanged; and a descriptor on port 587 ends the two-pass
sequence with the SMTP StartTLS protocol whatever the http_get flag is. -/
theorem c6_starttls_auto :
    (∀ (info : ServerInfo) (proto : TlsWrappedProtocolEnum),
      STARTTLS_PROTOCOL_DICT_PORT info.port = some proto →
      (autoAdjust info).tls_wrapped_protocol = proto ∧ (autoAdjust info).port = info.port) ∧
    (∀ info : ServerInfo,
      STARTTLS_PROTOCOL_DICT_PORT info.port = none → autoAdjust info = info) ∧
    (∀ goods : List ServerInfo, applyStartTlsAuto (some "auto") goods = goods.map autoAdjust) ∧
    (∀ (info : ServerInfo) (http_get : Bool), info.port = 587 →
      applyHttpGet http_get (applyStartTlsAuto (some "auto") [info]) =
        [{ info with tls_wrapped_protocol := TlsWrappedProtocolEnum.STARTTLS_SMTP }]) := by
  refine ⟨?_, ?_, ?_, ?_⟩
  · intro info proto h
    simp [autoAdjust, h]
  · intro info h
    simp [autoAdjust, h]
  · intro goods
    simp [applyStartTlsAuto]
  · intro info http_get h
    have h1 : STARTTLS_PROTOCOL_DICT_PORT 587 = some TlsWrappedProtocolEnum.STARTTLS_SMTP := by
      decide
    cases http_get <;>
      simp [applyStartTlsAuto, applyHttpGet, autoAdjust, httpGetAdjust, h1, h]

/-- C8: with the regular flag set, the expansion enables all fourteen
canonical flags and clears the convenience flag itself. -/
theorem c8_regular_expansion (args : ArgsCommandList) (h : args.regular = true) :
    (expandRegular args).sslv2 = true ∧ (expandRegular args).sslv3 = true ∧
    (expandRegular args).tlsv1 = true ∧ (expandRegular args).tlsv1_1 = true ∧
    (expandRegular args).tlsv1_2 = true ∧ (expandRegular args).reneg = true ∧
    (expandRegular args).resum = true ∧ (expandRegular args).certinfo_basic = true ∧
    (expandRegular args).http_get = true ∧ (expandRegular args).hide_rejected_ciphers = true ∧
    (expandRegular args).compression = true ∧ (expandRegular args).heartbleed = true ∧
    (expandRegular args).openssl_ccs = true ∧ (expandRegular args).fallback = true ∧
    (expandRegular args).regular = false := by
  simp [expandRegular, h]

/-- C10: a targets-file line is dropped exactly when it is blank after
stripping or its very first character is the comment character; a line of
whitespace followed by a number sign is not dropped but stripped and kept
as an ordinary target. -/
theorem c10_comment_first_char :
    (∀ line : String,
      lineToTarget line = none ↔ (pyStrip line = "" ∨ pyStartsWith '#' line = true)) ∧
    (∀ line : String, pyStartsWith '#' line = false → pyStrip line ≠ "" →
      lineToTarget line = some (pyStrip line)) := by
  constructor
  · intro line
    by_cases h1 : pyStrip line = ""
    · simp [lineToTarget, h1]
    · by_cases h2 : pyStartsWith '#' line = true
      · simp [lineToTarget, h1, h2]
      · simp [lineToTarget, h1, h2]
  · intro line h2 h1
    simp [lineToTarget, h1, h2]

/-- C6 witness: all four parts at concrete descriptors on ports 587 and
8443. -/
theorem c6_witness :
    ((autoAdjust ⟨"h", none, 587, TlsWrappedProtocolEnum.PLAIN_TLS, "h"⟩).tls_wrapped_protocol =
        TlsWrappedProtocolEnum.STARTTLS_SMTP ∧
      (autoAdjust ⟨"h", none, 587, TlsWrappedProtocolEnum.PLAIN_TLS, "h"⟩).port =
        (⟨"h", none, 587, TlsWrappedProtocolEnum.PLAIN_TLS, "h"⟩ : ServerInfo).port) ∧
    autoAdjust ⟨"h", none, 8443, TlsWrappedProtocolEnum.PLAIN_TLS, "h"⟩ =
      ⟨"h", none, 8443, TlsWrappedProtocolEnum.PLAIN_TLS, "h"⟩ ∧
    applyStartTlsAuto (some "auto") [⟨"h", none, 587, TlsWrappedProtocolEnum.PLAIN_TLS, "h"⟩] =
      [⟨"h", none, 587, TlsWrappedProtocolEnum.PLAIN_TLS, "h"⟩].map autoAdjust ∧
    applyHttpGet true
        (applyStartTlsAuto (some "auto")
          [⟨"h", none, 587, TlsWrappedProtocolEnum.PLAIN_TLS, "h"⟩]) =
      [{ (⟨"h", none, 587, TlsWrappedProtocolEnum.PLAIN_TLS, "h"⟩ : ServerInfo) with
          tls_wrapped_protocol := TlsWrappedProtocolEnum.STARTTLS_SMTP }] :=
  ⟨c6_starttls_auto.1 ⟨"h", none, 587, TlsWrappedProtocolEnum.PLAIN_TLS, "h"⟩
      TlsWrappedProtocolEnum.STARTTLS_SMTP (by decide),
    c6_starttls_auto.2.1 ⟨"h", none, 8443, TlsWrappedProtocolEnum.PLAIN_TLS, "h"⟩ (by decide),
    c6_starttls_auto.2.2.1 [⟨"h", none, 587, TlsWrappedProtocolEnum.PLAIN_TLS, "h"⟩],
    c6_starttls_auto.2.2.2 ⟨"h", none, 587, TlsWrappedProtocolEnum.PLAIN_TLS, "h"⟩ true (by decide)⟩

/-- C8 witness: the expansion at the default argument record with the
regular flag turned on. -/
theorem c8_witness :
    (expandRegular { argsBase with regular := true }).sslv2 = true ∧
    (expandRegular { argsBase with regular := true }).sslv3 = true ∧
    (expandRegular { argsBase with regular := true }).tlsv1 = true ∧
    (expandRegular { argsBase with regular := true }).tlsv1_1 = true ∧
    (expandRegular { argsBase with regular := true }).tlsv1_2 = true ∧
    (expandRegular { argsBase with regular := true }).reneg = true ∧
    (expandRegular { argsBase with regular := true }).resum = true ∧
    (expandRegular { argsBase with regular := true }).certinfo_basic = true ∧
    (expandRegular { argsBase with regular := true }).http_get = true ∧
    (expandRegular { argsBase with regular := true }).hide_rejected_ciphers = true ∧
    (expandRegular { argsBase with regular := true }).compression = true ∧
    (expandRegular { argsBase with regular := true }).heartbleed = true ∧
    (expandRegular { argsBase with regular := true }).openssl_ccs = true ∧
    (expandRegular { argsBase with regular := true }).fallback = true ∧
    (expandRegular { argsBase with regular := true }).regular = false :=
  c8_regular_expansion { argsBase with regular := true } (by decide)

/-- C10 witness: the whitespace-then-number-sign line is kept stripped, the
plainly commented line characterized by the equivalence. -/
theorem c10_witness :
    lineToTarget "  #foo" = some (pyStrip "  #foo") ∧
    (lineToTarget "#bar" = none ↔ (pyStrip "#bar" = "" ∨ pyStartsWith '#' "#bar" = true)) :=
  ⟨c10_comment_first_char.2 "  #foo" (by decide) (by decide),
    c10_comment_first_char.1 "#bar"⟩

/-- C5: target sourcing — a truthy targets file with positional targets is
the mutual-exclusion error; an unreadable targets file is the
unreadable-file error; a readable file contributes one target per line
with blank lines and lines whose first character is the comment character
skipped; and an empty final target list is the no-targets error. -/
theorem c5_target_sourcing :
    (∀ (w : World) (args : ArgsCommandList) (tlist : List String),
      pyTruthyStr args.targets_in = true → tlist ≠ [] →
      parse_command_line w args tlist =
        Except.error (RunFailure.parsingError MSG_MUTUALLY_EXCLUSIVE)) ∧
    (∀ (w : World) (args : ArgsCommandList) (name : String),
      args.targets_in = some name → name ≠ "" → w.readTargetsFile name = none →
      parse_command_line w args [] =
        Except.error (RunFailure.parsingError (MSG_UNREADABLE name))) ∧
    (∀ (fs : String → Option (List String)) (name : String) (file_lines : List String),
      name ≠ "" → fs name = some file_lines →
      gatherTargets fs (some name) [] = Except.ok (file_lines.filterMap lineToTarget)) ∧
    (∀ line : String, (pyStrip line = "" ∨ pyStartsWith '#' line = true) →
      lineToTarget line = none) ∧
    (∀ (w : World) (args : ArgsCommandList) (tlist : List String),
      gatherTargets w.readTargetsFile args.targets_in tlist = Except.ok [] →
      parse_command_line w args tlist =
        Except.error (RunFailure.parsingError MSG_NO_TARGETS)) := by
  refine ⟨?_, ?_, ?_, ?_, ?_⟩
  · intro w args tlist ht hne
    have hE : tlist.isEmpty = false := by
      cases tlist
      · exact absurd rfl hne
      · rfl
    simp [parse_command_line, gatherTargets, ht, hE]
  · intro w args name hn hne hfs
    have ht : pyTruthyStr (some name) = true := by
      simp [pyTruthyStr, hne]
    simp [parse_command_line, gatherTargets, hn, ht, hfs]
  · intro fs name file_lines hne hfs
    have ht : pyTruthyStr (some name) = true := by
      simp [pyTruthyStr, hne]
    simp [gatherTargets, ht, hfs]
  · intro line h
    rcases h with h | h
    · simp [lineToTarget, h]
    · simp [lineToTarget, h]
  · intro w args tlist hg
    simp [parse_command_line, hg]

/-- C4: a lone certificate path or lone key path makes configuration
resolution fail with the client-auth-mismatch error, and the outcome is
the same whatever the probe, credential loader, proxy parser or platform
IPv6 capability are, so the failure precedes every per-target parse or
resolution. -/
theorem c4_client_auth_mismatch (w : World) (args0 : ArgsCommandList)
    (tlist targets : List String)
    (hg : gatherTargets w.readTargetsFile args0.targets_in tlist = Except.ok targets)
    (hne : targets ≠ [])
    (h1 : xmlQuietConflict (expandRegular args0) = false)
    (h2 : jsonQuietConflict (expandRegular args0) = false)
    (h3 : xmlJsonConflict (expandRegular args0) = false)
    (hxor : Bool.xor (pyTruthyStr args0.cert) (pyTruthyStr args0.key) = true) :
    ∀ w2 : World, w2.readTargetsFile = w.readTargetsFile →
      parse_command_line w2 args0 tlist =
        Except.error (RunFailure.parsingError MSG_CLIENT_AUTH) := by
  intro w2 hw
  have hE : targets.isEmpty = false := by
    cases targets
    · exact absurd rfl hne
    · rfl
  have hc : (expandRegular args0).cert = args0.cert := by
    unfold expandRegular
    split <;> rfl
  have hk : (expandRegular args0).key = args0.key := by
    unfold expandRegular
    split <;> rfl
  have hxor2 : Bool.xor (pyTruthyStr (expandRegular args0).cert)
      (pyTruthyStr (expandRegular args0).key) = true := by
    rw [hc, hk]; exact hxor
  simp [parse_command_line, hw, hg, hE, h1, h2, h3, clientAuthStep, hxor2]

/-- C5 witness: all five parts at concrete worlds, arguments and files. -/
theorem c5_witness :
    parse_command_line worldBase { argsBase with targets_in := some "f" } ["t"] =
      Except.error (RunFailure.parsingError MSG_MUTUALLY_EXCLUSIVE) ∧
    parse_command_line worldBase { argsBase with targets_in := some "f" } [] =
      Except.error (RunFailure.parsingError (MSG_UNREADABLE "f")) ∧
    gatherTargets (fun _ => some ["a", "#c", " ", "  #kept"]) (some "f") [] =
      Except.ok ((["a", "#c", " ", "  #kept"] : List String).filterMap lineToTarget) ∧
    lineToTarget "#c" = none ∧
    parse_command_line worldBase argsBase [] =
      Except.error (RunFailure.parsingError MSG_NO_TARGETS) :=
  ⟨c5_target_sourcing.1 worldBase { argsBase with targets_in := some "f" } ["t"]
      (by decide) (by decide),
    c5_target_sourcing.2.1 worldBase { argsBase with targets_in := some "f" } "f"
      rfl (by decide) rfl,
    c5_target_sourcing.2.2.1 (fun _ => some ["a", "#c", " ", "  #kept"]) "f"
      ["a", "#c", " ", "  #kept"] (by decide) rfl,
    c5_target_sourcing.2.2.2.1 "#c" (Or.inr (by decide)),
    c5_target_sourcing.2.2.2.2 worldBase argsBase [] (by decide)⟩

/-- C4 witness: a lone --cert at an otherwise default configuration with
one positional target. -/
theorem c4_witness :
    parse_command_line worldBase { argsBase with cert := some "cert.pem" } ["example.com"] =
      Except.error (RunFailure.parsingError MSG_CLIENT_AUTH) :=
  c4_client_auth_mismatch worldBase { argsBase with cert := some "cert.pem" }
    ["example.com"] ["example.com"] (by decide) (by decide) (by decide) (by decide)
    (by decide) (by decide) worldBase rfl
